import Mathlib

/-!
Verification development for the conseval scorer framework
(`conseval/scorer.py`): a shallow embedding of scorer resolution,
parameter handling, and the common scoring pipeline, with theorems
settling the specification's claims about them.

Machine conventions: Python numbers are modelled as `Int`/`ℚ`; Python
exceptions as an error type returned through `Except`; dynamic module
lookup as an explicit environment `String → Option PyModule`.

The modules `conseval/params.py` and `conseval/utils/general.py` are not
part of the available sources; the definitions taken from them are
modelled from the specification and marked `Modelled from the spec:` in
their doc comments.  Everything else is translated from
`conseval/scorer.py`.
-/

/-- Python exception values relevant to the scorer framework, carrying
the message that `str(e)` would produce. -/
inductive PyError where
  | importError (msg : String)
  | attributeError (msg : String)
  | typeError (msg : String)
  | valueError (msg : String)
  | notImplementedError
deriving DecidableEq, Repr

/-- `str(e)` for the modelled exceptions, as used by the `"%s" % e`
formatting in `get_scorer_cls`. -/
def PyError.str : PyError → String
  | .importError m => m
  | .attributeError m => m
  | .typeError m => m
  | .valueError m => m
  | .notImplementedError => ""

/-- A Python parameter value: the scorer parameters range over ints,
floats and booleans.  Floats are modelled as rationals. -/
inductive Value where
  | int (n : Int)
  | float (q : ℚ)
  | bool (b : Bool)
deriving DecidableEq, Repr

/-- The type tag of a parameter descriptor (the `int` / `float` / `bool`
constructor passed as the `type` argument of `ParamDef`). -/
inductive PType where
  | int
  | float
  | bool
deriving DecidableEq, Repr

/-- Truncation of a rational toward zero, as Python `int(float)` does. -/
def ratTrunc (q : ℚ) : Int :=
  if 0 ≤ q then ⌊q⌋ else -⌊-q⌋

/-- Python-style coercion of a value by a type constructor: `int(x)`,
`float(x)`, `bool(x)`.  `none` would model a coercion failure; on the
modelled value domain all three constructors succeed. -/
def coerceValue : PType → Value → Option Value
  | .int, .int n => some (.int n)
  | .int, .float q => some (.int (ratTrunc q))
  | .int, .bool b => some (.int (if b then 1 else 0))
  | .float, .int n => some (.float n)
  | .float, .float q => some (.float q)
  | .float, .bool b => some (.float (if b then 1 else 0))
  | .bool, .int n => some (.bool (n ≠ 0))
  | .bool, .float q => some (.bool (q ≠ 0))
  | .bool, .bool b => some (.bool b)

/-- The validator predicates occurring in `Scorer.params`:
`lambda x: x>=0` and `lambda x: 0<=x<=1`. -/
inductive Validator where
  | ge0
  | unitInterval
deriving DecidableEq, Repr

/-- Evaluate a validator on a (coerced) value, following Python's
comparison semantics on numbers and booleans (`True == 1`,
`False == 0`). -/
def Validator.eval : Validator → Value → Bool
  | .ge0, .int n => decide (0 ≤ n)
  | .ge0, .float q => decide (0 ≤ q)
  | .ge0, .bool _ => true
  | .unitInterval, .int n => decide (0 ≤ n ∧ n ≤ 1)
  | .unitInterval, .float q => decide (0 ≤ q ∧ q ≤ 1)
  | .unitInterval, .bool _ => true

/-- Modelled from the spec (`conseval/params.py` is not in the available
sources): one parameter descriptor `ParamDef(name, default, type,
validator, help=...)` — name, default value, expected type, optional
validity predicate, help text. -/
structure ParamDef where
  name : String
  default : Value
  ptype : PType
  validator : Option Validator
  help : String
deriving DecidableEq, Repr

/-- Modelled from the spec: the inheritance merge of parameter sets —
a subclass's effective schema is the superclass's descriptor list with
any same-named descriptor replaced by the subclass's version, followed
by the genuinely new descriptors in declaration order. -/
def Params.extend (base ext : List ParamDef) : List ParamDef :=
  base.map (fun pd => ((ext.find? (fun e => e.name = pd.name)).getD pd)) ++
    ext.filter (fun e => ¬ base.any (fun pd => pd.name = e.name))

/-- First override name that does not occur in the schema, if any. -/
def firstUnknown (schema : List ParamDef) : List (String × Value) → Option String
  | [] => none
  | (n, _) :: rest =>
      if schema.any (fun pd => pd.name = n) then firstUnknown schema rest
      else some n

/-- Modelled from the spec: validation of one supplied override against
its descriptor — coerce to the descriptor's type (failure: "invalid
type" error), then apply the validator if present (failure: "invalid
value" error). -/
def validateOverride (pd : ParamDef) (v : Value) : Except PyError Value :=
  match coerceValue pd.ptype v with
  | none => .error (.typeError ("invalid type for parameter " ++ pd.name))
  | some cv =>
      match pd.validator with
      | some f =>
          if f.eval cv then .ok cv
          else .error (.valueError ("invalid value for parameter " ++ pd.name))
      | none => .ok cv

/-- Resolve each descriptor of the schema, in order, to its final
value: the validated caller override when one is supplied, the default
otherwise.  The first failing override aborts the construction. -/
def resolveParams (overrides : List (String × Value)) :
    List ParamDef → Except PyError (List (String × Value))
  | [] => .ok []
  | pd :: rest =>
      match (overrides.find? (fun p => p.1 = pd.name)) with
      | some (_, v) =>
          match validateOverride pd v with
          | .error e => .error e
          | .ok cv =>
              match resolveParams overrides rest with
              | .error e => .error e
              | .ok tail => .ok ((pd.name, cv) :: tail)
      | none =>
          match resolveParams overrides rest with
          | .error e => .error e
          | .ok tail => .ok ((pd.name, pd.default) :: tail)

/-- Modelled from the spec: `WithParams.__init__` — reject any supplied
name absent from the schema ("unknown parameter" error), then install
one attribute per descriptor, the validated override when supplied and
the default otherwise. -/
def withParamsInit (schema : List ParamDef) (overrides : List (String × Value)) :
    Except PyError (List (String × Value)) :=
  match firstUnknown schema overrides with
  | some n => .error (.typeError ("unknown parameter " ++ n))
  | none => resolveParams overrides schema

/-- `Scorer.params` from `conseval/scorer.py`: the three tunable
parameters every scorer inherits. -/
def Scorer.params : List ParamDef :=
  [⟨"window_size", .int 2, .int, some .ge0,
      "Number of residues on either side included in the window"⟩,
   ⟨"window_lambda", .float (1/2), .float, some .unitInterval,
      "lambda for window heuristic linear combination. Meaningful only if window_size != 0."⟩,
   ⟨"normalize", .bool false, .bool, none,
      "return z-scores (over the alignment) of each column, instead of original scores"⟩]

/-- Python `str.split(sep)` with a one-character separator: splits at
every occurrence, keeping empty pieces, and yields `[s]` when the
separator does not occur (in particular, never the empty list). -/
def splitCharAux (c : Char) : List Char → List Char → List String
  | [], acc => [String.mk acc.reverse]
  | x :: xs, acc =>
      if x = c then String.mk acc.reverse :: splitCharAux c xs []
      else splitCharAux c xs (x :: acc)

/-- Python `s.split(c)` for a single-character separator `c`. -/
def pySplit (s : String) (c : Char) : List String :=
  splitCharAux c s.toList []

/-- Python `str.capitalize()`: first character uppercased, the rest
lowercased. -/
def pyCapitalize (s : String) : String :=
  match s.toList with
  | [] => ""
  | c :: cs => String.mk (c.toUpper :: cs.map Char.toLower)

/-- The class-name computation of `get_scorer_cls`:
`"".join(s.capitalize() for s in name.split('.')[-1].split('_'))`. -/
def scorerClsName (name : String) : String :=
  String.join ((pySplit ((pySplit name '.').getLastD "") '_').map pyCapitalize)

/-- A concrete scorer class: its `__module__` path and its effective
parameter schema (the result of the `Params` inheritance merge for that
class). -/
structure ScorerCls where
  moduleName : String
  params : List ParamDef
deriving DecidableEq, Repr

/-- A constructed scorer instance: the parameter attributes installed by
`WithParams.__init__`, and the `name` attribute set by
`Scorer.__init__`. -/
structure ScorerInstance where
  attrs : List (String × Value)
  name : String
deriving DecidableEq, Repr

/-- `Scorer.__init__` from `conseval/scorer.py`: run the parameter
installation of `WithParams.__init__`, then set
`self.name = ".".join(type(self).__module__.split('.')[1:])`. -/
def Scorer.init (cls : ScorerCls) (overrides : List (String × Value)) :
    Except PyError ScorerInstance :=
  match withParamsInit cls.params overrides with
  | .error e => .error e
  | .ok attrs =>
      .ok ⟨attrs, String.intercalate "." ((pySplit cls.moduleName '.').drop 1)⟩

/-- A loaded Python module under the `scorers` root, as seen by
`get_scorer_cls`: the truthiness of its `IS_BASE_SCORER` attribute when
that attribute exists, and its scorer-class attributes by name. -/
structure PyModule where
  isBaseScorer : Option Bool
  classes : List (String × ScorerCls)
deriving DecidableEq, Repr

/-- The importable modules, modelling `__import__`: a map from full
dotted module paths to modules. -/
def ModuleEnv : Type := String → Option PyModule

/-- `get_scorer_cls` from `conseval/scorer.py`: import module
`scorers.<name>`; compute the class name by capitalize-concatenating the
underscore-split final dotted segment; if the module has a truthy
`IS_BASE_SCORER` attribute, bare `return` (i.e. return `None`);
otherwise fetch the class attribute.  An `ImportError` or
`AttributeError` `e` is re-raised as
`ImportError("%s: %s is not a valid scorer." % (e, name))`. -/
def get_scorer_cls (env : ModuleEnv) (name : String) :
    Except PyError (Option ScorerCls) :=
  match env ("scorers." ++ name) with
  | none =>
      .error (.importError
        ((PyError.importError ("No module named " ++ ("scorers." ++ name))).str ++
          ": " ++ name ++ " is not a valid scorer."))
  | some m =>
      match m.isBaseScorer with
      | some true => .ok none
      | _ =>
          match m.classes.find? (fun p => p.1 = scorerClsName name) with
          | none =>
              .error (.importError
                ((PyError.attributeError
                    ("'module' object has no attribute '" ++ scorerClsName name ++ "'")).str ++
                  ": " ++ name ++ " is not a valid scorer."))
          | some (_, cls) => .ok (some cls)

/-- `get_scorer` from `conseval/scorer.py`: resolve the class with
`get_scorer_cls`, then call it on the parameter overrides.  When
`get_scorer_cls` returned `None` (base-marked module), calling it
raises `TypeError`; construction errors from `Scorer.__init__`
propagate as they are. -/
def get_scorer (env : ModuleEnv) (name : String)
    (overrides : List (String × Value)) : Except PyError ScorerInstance :=
  match get_scorer_cls env name with
  | .error e => .error e
  | .ok none => .error (.typeError "'NoneType' object is not callable")
  | .ok (some cls) => Scorer.init cls overrides

/-- An alignment, as consumed by the scoring pipeline: an ordered list
of aligned rows; the first row is the reference sequence. -/
structure ConsAlignment where
  msa : List (List Char)
deriving DecidableEq, Repr

/-- Length of the alignment's reference sequence (its first row). -/
def ConsAlignment.refLen (a : ConsAlignment) : Nat :=
  (a.msa.headD []).length

/-- Modelled from the spec (`conseval/utils/general.py` is not in the
available sources): `window_scores(scores, window_size, window_lambda)`
— each column's new score is the linear combination, weighted by
`window_lambda`, of the column's own score and the average of the
scores of the at most `2*window_size` neighbouring columns, averaging
only over the neighbours that exist; a column with no neighbour keeps
its score. -/
def window_scores (scores : List ℚ) (window : Nat) (lam : ℚ) : List ℚ :=
  (List.range scores.length).map (fun i =>
    let nbrs := (List.range scores.length).filter
      (fun j => j ≠ i ∧ i - j ≤ window ∧ j - i ≤ window)
    let vals := nbrs.map (fun j => scores.getD j 0)
    if vals.length = 0 then scores.getD i 0
    else lam * scores.getD i 0 + (1 - lam) * (vals.sum / (vals.length : ℚ)))

/-- Sum of a list of rationals. -/
def qsum (xs : List ℚ) : ℚ := xs.sum

/-- Modelled from the spec: `norm_scores(scores, filter)` — the z-score
transform of the sequence: subtract the mean and divide by the standard
deviation, both computed over the sequence with the lowest and highest
`fil` values excluded; when fewer than `2*fil+1` values remain the full
sequence is used instead; a zero standard deviation yields all zeros.
The float square root is modelled by `Rat.sqrt`. -/
def norm_scores (scores : List ℚ) (fil : Nat) : List ℚ :=
  let sorted := scores.mergeSort (fun a b => a ≤ b)
  let core :=
    if scores.length < 2 * fil + 1 then scores
    else (sorted.drop fil).take (scores.length - 2 * fil)
  let mean := qsum core / (core.length : ℚ)
  let sd := Rat.sqrt (qsum (core.map (fun x => (x - mean) ^ 2)) / (core.length : ℚ))
  if sd = 0 then scores.map (fun _ => 0)
  else scores.map (fun x => (x - mean) / sd)

/-- `Scorer.score` from `conseval/scorer.py`, parametrised by the
instance's configuration and its algorithm-specific `_score` method:
compute the raw scores; if `self.window_size` is truthy, window them;
if `self.normalize` is truthy, replace them by `norm_scores(scores,
filter=5)`. -/
def Scorer.score (window_size : Nat) (window_lambda : ℚ) (normalize : Bool)
    (rawScore : ConsAlignment → Except PyError (List ℚ)) (a : ConsAlignment) :
    Except PyError (List ℚ) :=
  match rawScore a with
  | .error e => .error e
  | .ok scores =>
      let scores := if window_size ≠ 0
        then window_scores scores window_size window_lambda else scores
      let scores := if normalize then norm_scores scores 5 else scores
      .ok scores

/-- `Scorer._score` on the abstract base `Scorer` itself:
`raise NotImplementedError()`. -/
def Scorer.scoreRaw : ConsAlignment → Except PyError (List ℚ) :=
  fun _ => .error .notImplementedError

/-- Does the error carry the `ImportError` wrap used by
`get_scorer_cls` for its "not a valid scorer" messages? -/
def PyError.isImportError : PyError → Bool
  | .importError _ => true
  | _ => false

/-- Is the error one of the construction-time parameter errors
("unknown parameter", "invalid type", "invalid value")? -/
def PyError.isParamError : PyError → Bool
  | .typeError _ => true
  | .valueError _ => true
  | _ => false

/-- The `JsDivergence` scorer class of module
`scorers.caprasingh07.js_divergence`, with the inherited base schema. -/
def jsDivCls : ScorerCls :=
  ⟨"scorers.caprasingh07.js_divergence", Scorer.params⟩

/-- The instance `JsDivergence()` constructs with no overrides. -/
def jsDivInst : ScorerInstance :=
  ⟨[("window_size", .int 2), ("window_lambda", .float (1/2)),
    ("normalize", .bool false)], "caprasingh07.js_divergence"⟩

/-- A concrete module environment: one resolvable scorer module, one
module without the expected class attribute, and one module marked as
an abstract base via `IS_BASE_SCORER = True`. -/
def scorersEnv : ModuleEnv := fun p =>
  if p = "scorers.caprasingh07.js_divergence" then
    some ⟨none, [("JsDivergence", jsDivCls)]⟩
  else if p = "scorers.empty.no_class" then some ⟨none, []⟩
  else if p = "scorers.base_scorer" then some ⟨some true, []⟩
  else none

/-- A raw `_score` implementation returning the fixed score list
`[0, 1, 2, 3]` for every alignment. -/
def rawEx : ConsAlignment → Except PyError (List ℚ) := fun _ => .ok [0, 1, 2, 3]

/-- A four-column alignment with a single (reference) row. -/
def alnEx : ConsAlignment := ⟨[['a', 'b', 'c', 'd']]⟩

/-- A one-descriptor extension, as a subclass would declare. -/
def extraEx : List ParamDef := [⟨"gap_cutoff", .float (3/10), .float, none, ""⟩]

/-- Reading a list back off its index range recovers the list. -/
theorem map_getD_range (s : List ℚ) :
    (List.range s.length).map (fun i => s.getD i 0) = s := by
  induction s with
  | nil => rfl
  | cons x xs ih =>
      rw [List.length_cons, List.range_succ_eq_map, List.map_cons, List.map_map]
      simp only [Function.comp_def, List.getD_cons_succ, List.getD_cons_zero]
      rw [ih]

/-- With `window_size = 0` no column has any neighbour, so the
windowing transform is the identity. -/
theorem window_scores_zero_window (s : List ℚ) (lam : ℚ) :
    window_scores s 0 lam = s := by
  unfold window_scores
  have h : ∀ i, (List.range s.length).filter
      (fun j => decide (j ≠ i ∧ i - j ≤ 0 ∧ j - i ≤ 0)) = [] := by
    intro i
    rw [List.filter_eq_nil_iff]
    intro j _
    simp only [decide_eq_true_eq, not_and]
    omega
  calc (List.range s.length).map (fun i =>
        let nbrs := (List.range s.length).filter
          (fun j => j ≠ i ∧ i - j ≤ 0 ∧ j - i ≤ 0)
        let vals := nbrs.map (fun j => s.getD j 0)
        if vals.length = 0 then s.getD i 0
        else lam * s.getD i 0 + (1 - lam) * (vals.sum / (vals.length : ℚ)))
      = (List.range s.length).map (fun i => s.getD i 0) := by
        apply List.map_congr_left
        intro i _
        simp only [h i, List.map_nil, List.length_nil]
        rfl
    _ = s := map_getD_range s

/-- The windowing transform preserves the length of the sequence. -/
theorem window_scores_length (s : List ℚ) (w : Nat) (lam : ℚ) :
    (window_scores s w lam).length = s.length := by
  unfold window_scores
  rw [List.length_map, List.length_range]

/-- The normalization transform preserves the length of the sequence. -/
theorem norm_scores_length (s : List ℚ) (fil : Nat) :
    (norm_scores s fil).length = s.length := by
  simp [norm_scores, apply_ite List.length]

/-- C3: `Scorer.score` first obtains the raw per-column scores, then —
exactly when `window_size > 0` — replaces them with the windowed
sequence, and then — exactly when `normalize` is true — replaces the
(possibly windowed) sequence with the z-score transform at the fixed
exclusion count 5; with `window_size = 0` the output is the raw
sequence (normalized when requested) for any `window_lambda`, and the
windowing transform itself is the identity at window 0. -/
theorem scorer_score_pipeline_order (ws : Nat) (wl : ℚ) (nm : Bool)
    (raw : ConsAlignment → Except PyError (List ℚ)) (a : ConsAlignment)
    (s : List ℚ) (h : raw a = .ok s) :
    Scorer.score ws wl nm raw a =
      .ok (if nm then
             norm_scores (if 0 < ws then window_scores s ws wl else s) 5
           else (if 0 < ws then window_scores s ws wl else s)) ∧
    (ws = 0 → Scorer.score ws wl nm raw a =
      .ok (if nm then norm_scores s 5 else s)) ∧
    window_scores s 0 wl = s := by
  refine ⟨?_, ?_, window_scores_zero_window s wl⟩
  · unfold Scorer.score
    rw [h]
    by_cases hw : ws = 0
    · subst hw
      simp
    · have hpos : 0 < ws := Nat.pos_of_ne_zero hw
      simp [hw, hpos]
  · intro h0
    subst h0
    unfold Scorer.score
    rw [h]
    simp

theorem scorer_score_pipeline_order_witness :
    Scorer.score 2 (1/2) true rawEx alnEx =
      .ok (if true then
             norm_scores (if 0 < 2 then window_scores [0, 1, 2, 3] 2 (1/2)
               else [0, 1, 2, 3]) 5
           else (if 0 < 2 then window_scores [0, 1, 2, 3] 2 (1/2)
               else [0, 1, 2, 3])) ∧
    ((2 : Nat) = 0 → Scorer.score 2 (1/2) true rawEx alnEx =
      .ok (if true then norm_scores [0, 1, 2, 3] 5 else [0, 1, 2, 3])) ∧
    window_scores [0, 1, 2, 3] 0 (1/2) = [0, 1, 2, 3] :=
  scorer_score_pipeline_order 2 (1/2) true rawEx alnEx [0, 1, 2, 3] rfl

/-- C6: the score sequence returned by `Scorer.score` has exactly one
entry per column of the alignment's reference sequence, whatever the
`window_size` and `normalize` settings, provided the algorithm's raw
computation yields one score per reference column; a zero-length
reference sequence yields the empty result. -/
theorem scorer_score_length_invariant (ws : Nat) (wl : ℚ) (nm : Bool)
    (raw : ConsAlignment → Except PyError (List ℚ)) (a : ConsAlignment)
    (s : List ℚ) (h : raw a = .ok s) (hlen : s.length = a.refLen) :
    ∃ out, Scorer.score ws wl nm raw a = .ok out ∧
      out.length = a.refLen ∧ (a.refLen = 0 → out = []) := by
  unfold Scorer.score
  rw [h]
  refine ⟨_, rfl, ?_, ?_⟩
  · by_cases hn : nm <;> by_cases hw : ws ≠ 0 <;>
      simp [hn, hw, norm_scores_length, window_scores_length, hlen]
  · intro h0
    have hs : s = [] := List.eq_nil_of_length_eq_zero (hlen.trans h0)
    subst hs
    by_cases hn : nm <;> by_cases hw : ws ≠ 0 <;>
      simp [hn, hw, window_scores, norm_scores]

theorem scorer_score_length_invariant_witness :
    ∃ out, Scorer.score 1 (1/3) true rawEx alnEx = .ok out ∧
      out.length = alnEx.refLen ∧ (alnEx.refLen = 0 → out = []) :=
  scorer_score_length_invariant 1 (1/3) true rawEx alnEx [0, 1, 2, 3] rfl
    (by decide)

/-- C9: invoking the raw-computation step on the abstract base `Scorer`
itself raises `NotImplementedError`, and `Scorer.score` propagates that
error synchronously to the caller under every configuration, neither
retrying nor swallowing it. -/
theorem scorer_score_base_not_implemented (ws : Nat) (wl : ℚ) (nm : Bool)
    (a : ConsAlignment) :
    Scorer.scoreRaw a = .error .notImplementedError ∧
    Scorer.score ws wl nm Scorer.scoreRaw a = .error .notImplementedError :=
  ⟨rfl, rfl⟩

/-- C4: `get_scorer_cls` looks the module up at the dotted path
`scorers.<name>` and fetches, inside it, the class whose name is the
capitalized-concatenated form of the final snake_case segment of
`name`; in particular `"caprasingh07.js_divergence"` yields the class
named `JsDivergence` of module `scorers.caprasingh07.js_divergence`. -/
theorem get_scorer_cls_resolves_name (env : ModuleEnv) (name : String)
    (m : PyModule) (pr : String × ScorerCls)
    (hm : env ("scorers." ++ name) = some m)
    (hb : m.isBaseScorer ≠ some true)
    (hc : m.classes.find? (fun p => p.1 = scorerClsName name) = some pr) :
    get_scorer_cls env name = .ok (some pr.2) ∧
    scorerClsName "caprasingh07.js_divergence" = "JsDivergence" := by
  constructor
  · obtain ⟨cn, cls⟩ := pr
    unfold get_scorer_cls
    cases hib : m.isBaseScorer with
    | none => simp only [hm, hib, hc]
    | some b =>
        cases b with
        | false => simp only [hm, hib, hc]
        | true => exact absurd hib hb
  · decide

theorem get_scorer_cls_resolves_name_witness :
    get_scorer_cls scorersEnv "caprasingh07.js_divergence" =
      .ok (some ("JsDivergence", jsDivCls).2) ∧
    scorerClsName "caprasingh07.js_divergence" = "JsDivergence" :=
  get_scorer_cls_resolves_name scorersEnv "caprasingh07.js_divergence"
    ⟨none, [("JsDivergence", jsDivCls)]⟩ ("JsDivergence", jsDivCls)
    rfl (by decide) rfl

/-- C5: when the module cannot be located, or the module exists (and is
not base-marked) but lacks the derived class name, `get_scorer_cls`
fails with an `ImportError` whose message is the underlying cause
followed by `": <name> is not a valid scorer."`. -/
theorem get_scorer_cls_failure_wraps_cause (env : ModuleEnv) (name : String) :
    (env ("scorers." ++ name) = none →
      get_scorer_cls env name = .error (.importError
        (("No module named " ++ ("scorers." ++ name)) ++ ": " ++ name ++
          " is not a valid scorer."))) ∧
    (∀ m : PyModule, env ("scorers." ++ name) = some m →
      m.isBaseScorer ≠ some true →
      m.classes.find? (fun p => p.1 = scorerClsName name) = none →
      get_scorer_cls env name = .error (.importError
        (("'module' object has no attribute '" ++ scorerClsName name ++ "'")
          ++ ": " ++ name ++ " is not a valid scorer."))) := by
  constructor
  · intro hm
    unfold get_scorer_cls
    simp only [hm, PyError.str]
  · intro m hm hb hc
    unfold get_scorer_cls
    cases hib : m.isBaseScorer with
    | none => simp only [hm, hib, hc, PyError.str]
    | some b =>
        cases b with
        | false => simp only [hm, hib, hc, PyError.str]
        | true => exact absurd hib hb

theorem get_scorer_cls_failure_wraps_cause_witness :
    get_scorer_cls scorersEnv "nosuch.module_scorer" = .error (.importError
        (("No module named " ++ ("scorers." ++ "nosuch.module_scorer")) ++
          ": " ++ "nosuch.module_scorer" ++ " is not a valid scorer.")) ∧
    get_scorer_cls scorersEnv "empty.no_class" = .error (.importError
        (("'module' object has no attribute '" ++
            scorerClsName "empty.no_class" ++ "'") ++ ": " ++
          "empty.no_class" ++ " is not a valid scorer.")) :=
  ⟨(get_scorer_cls_failure_wraps_cause scorersEnv "nosuch.module_scorer").1
      rfl,
   (get_scorer_cls_failure_wraps_cause scorersEnv "empty.no_class").2
      ⟨none, []⟩ rfl (by decide) rfl⟩

/-- C1 counterexample: the module `scorers.base_scorer` declares the
marker `IS_BASE_SCORER = True`, yet `get_scorer_cls` returns the value
`None` to the caller — no "no such scorer" / "invalid scorer name"
error is raised. -/
theorem get_scorer_cls_base_marker_cex :
    scorersEnv "scorers.base_scorer" = some ⟨some true, []⟩ ∧
    get_scorer_cls scorersEnv "base_scorer" = Except.ok none :=
  ⟨rfl, rfl⟩

/-- C1 (amended): for every dotted name whose resolved module declares
a truthy `IS_BASE_SCORER` marker, `get_scorer_cls` returns `None` —
it does not return the abstract base class, and it does not raise. -/
theorem get_scorer_cls_base_marker_returns_none (env : ModuleEnv)
    (name : String) (m : PyModule)
    (hm : env ("scorers." ++ name) = some m)
    (hb : m.isBaseScorer = some true) :
    get_scorer_cls env name = .ok none := by
  unfold get_scorer_cls
  simp only [hm, hb]

theorem get_scorer_cls_base_marker_returns_none_witness :
    get_scorer_cls scorersEnv "base_scorer" = .ok none :=
  get_scorer_cls_base_marker_returns_none scorersEnv "base_scorer"
    ⟨some true, []⟩ rfl rfl

/-- C2 counterexample: for the resolvable name
`"caprasingh07.js_divergence"` and the override `window_size = -1`,
construction fails and `get_scorer` surfaces the raw construction
error — a `ValueError` about the parameter — not an `ImportError`
carrying the "not a valid scorer" wrap. -/
theorem get_scorer_construction_error_cex :
    get_scorer scorersEnv "caprasingh07.js_divergence"
        [("window_size", Value.int (-1))] =
      Except.error (PyError.valueError "invalid value for parameter window_size") ∧
    (PyError.valueError "invalid value for parameter window_size").isImportError
      = false :=
  ⟨rfl, rfl⟩

/-- C2 (amended): when the dotted name resolves to a class and
constructing that class fails, `get_scorer` propagates the
construction error exactly as raised, without wrapping it in the
"not a valid scorer" resolution error. -/
theorem get_scorer_propagates_construction_error (env : ModuleEnv)
    (name : String) (cls : ScorerCls) (overrides : List (String × Value))
    (e : PyError)
    (hres : get_scorer_cls env name = .ok (some cls))
    (hinit : Scorer.init cls overrides = .error e) :
    get_scorer env name overrides = .error e := by
  unfold get_scorer
  rw [hres]
  exact hinit

theorem get_scorer_propagates_construction_error_witness :
    get_scorer scorersEnv "caprasingh07.js_divergence"
        [("window_size", Value.int (-1))] =
      .error (.valueError "invalid value for parameter window_size") :=
  get_scorer_propagates_construction_error scorersEnv
    "caprasingh07.js_divergence" jsDivCls [("window_size", Value.int (-1))]
    (.valueError "invalid value for parameter window_size")
    rfl rfl

/-- With no overrides, every descriptor resolves to its default. -/
theorem resolveParams_nil (schema : List ParamDef) :
    resolveParams [] schema =
      .ok (schema.map (fun pd => (pd.name, pd.default))) := by
  induction schema with
  | nil => rfl
  | cons pd rest ih => simp [resolveParams, ih]

/-- C7: a subclass schema extending the base with genuinely new
descriptors is exactly the three inherited parameters followed by its
own; the inherited descriptors are `window_size` (int, default 2,
validator `x >= 0`), `window_lambda` (float, default 0.5, validator
`0 <= x <= 1`) and `normalize` (bool, default False, no validator);
construction with no overrides installs every default as an
attribute. -/
theorem scorer_params_inherited_defaults (extra : List ParamDef)
    (hnew : ∀ e ∈ extra, ∀ pd ∈ Scorer.params, pd.name ≠ e.name) :
    Params.extend Scorer.params extra = Scorer.params ++ extra ∧
    withParamsInit (Params.extend Scorer.params extra) [] =
      .ok ([("window_size", Value.int 2), ("window_lambda", Value.float (1/2)),
            ("normalize", Value.bool false)] ++
        extra.map (fun pd => (pd.name, pd.default))) ∧
    Scorer.params.map (fun pd => (pd.name, pd.ptype, pd.validator)) =
      [("window_size", PType.int, some Validator.ge0),
       ("window_lambda", PType.float, some Validator.unitInterval),
       ("normalize", PType.bool, none)] ∧
    withParamsInit Scorer.params [] =
      .ok [("window_size", Value.int 2), ("window_lambda", Value.float (1/2)),
           ("normalize", Value.bool false)] := by
  have hfind : ∀ pd ∈ Scorer.params,
      extra.find? (fun e => e.name = pd.name) = none := by
    intro pd hpd
    rw [List.find?_eq_none]
    intro e he
    simp only [decide_eq_true_eq]
    exact fun hcontra => (hnew e he pd hpd) hcontra.symm
  have hext : Params.extend Scorer.params extra = Scorer.params ++ extra := by
    unfold Params.extend
    have h1 : Scorer.params.map
        (fun pd => (extra.find? (fun e => e.name = pd.name)).getD pd) =
        Scorer.params := by
      have h0 : ∀ pd ∈ Scorer.params,
          (extra.find? (fun e => e.name = pd.name)).getD pd = id pd := by
        intro pd hpd
        rw [hfind pd hpd]
        rfl
      rw [List.map_congr_left h0, List.map_id]
    have h2 : extra.filter
        (fun e => ¬ Scorer.params.any (fun pd => pd.name = e.name)) = extra := by
      rw [List.filter_eq_self]
      intro e he
      simp only [decide_eq_true_eq, List.any_eq_true, decide_not, not_exists,
        not_and]
      exact fun pd hpd => hnew e he pd hpd
    rw [h1, h2]
  refine ⟨hext, ?_, rfl, rfl⟩
  rw [hext]
  unfold withParamsInit
  simp only [firstUnknown]
  rw [resolveParams_nil, List.map_append]
  rfl

theorem scorer_params_inherited_defaults_witness :
    Params.extend Scorer.params extraEx = Scorer.params ++ extraEx ∧
    withParamsInit (Params.extend Scorer.params extraEx) [] =
      .ok ([("window_size", Value.int 2), ("window_lambda", Value.float (1/2)),
            ("normalize", Value.bool false)] ++
        extraEx.map (fun pd => (pd.name, pd.default))) ∧
    Scorer.params.map (fun pd => (pd.name, pd.ptype, pd.validator)) =
      [("window_size", PType.int, some Validator.ge0),
       ("window_lambda", PType.float, some Validator.unitInterval),
       ("normalize", PType.bool, none)] ∧
    withParamsInit Scorer.params [] =
      .ok [("window_size", Value.int 2), ("window_lambda", Value.float (1/2)),
           ("normalize", Value.bool false)] :=
  scorer_params_inherited_defaults extraEx (by decide)

/-- Any error produced by validating one override is a parameter error
("invalid type" or "invalid value"). -/
theorem validateOverride_error_is_param (pd : ParamDef) (v : Value)
    (e : PyError) (h : validateOverride pd v = .error e) :
    e.isParamError = true := by
  unfold validateOverride at h
  cases hc : coerceValue pd.ptype v with
  | none =>
      simp only [hc, Except.error.injEq] at h
      subst h
      rfl
  | some cv =>
      simp only [hc] at h
      cases hv : pd.validator with
      | none =>
          simp only [hv] at h
          exact Except.noConfusion h
      | some f =>
          simp only [hv] at h
          by_cases hf : f.eval cv = true
          · simp only [if_pos hf] at h
            exact Except.noConfusion h
          · simp only [if_neg hf, Except.error.injEq] at h
            subst h
            rfl

/-- Any error produced by the descriptor-resolution pass is a
parameter error. -/
theorem resolveParams_error_is_param (overrides : List (String × Value))
    (schema : List ParamDef) (e : PyError)
    (h : resolveParams overrides schema = .error e) : e.isParamError = true := by
  induction schema with
  | nil => exact Except.noConfusion h
  | cons pd rest ih =>
      unfold resolveParams at h
      cases hf : overrides.find? (fun p => p.1 = pd.name) with
      | some pr =>
          obtain ⟨pn, pv⟩ := pr
          simp only [hf] at h
          cases hv : validateOverride pd pv with
          | error e1 =>
              simp only [hv, Except.error.injEq] at h
              subst h
              exact validateOverride_error_is_param pd pv e1 hv
          | ok cv =>
              simp only [hv] at h
              cases hrest : resolveParams overrides rest with
              | error e2 =>
                  simp only [hrest, Except.error.injEq] at h
                  subst h
                  exact ih hrest
              | ok tail =>
                  simp only [hrest] at h
                  exact Except.noConfusion h
      | none =>
          simp only [hf] at h
          cases hrest : resolveParams overrides rest with
          | error e2 =>
              simp only [hrest, Except.error.injEq] at h
              subst h
              exact ih hrest
          | ok tail =>
              simp only [hrest] at h
              exact Except.noConfusion h

/-- When some schema descriptor's supplied override fails validation,
the resolution pass fails. -/
theorem resolveParams_error_of_reject (overrides : List (String × Value))
    (schema : List ParamDef) (pd : ParamDef) (pr : String × Value)
    (hmem : pd ∈ schema)
    (hov : overrides.find? (fun p => p.1 = pd.name) = some pr)
    (hrej : ∃ e0, validateOverride pd pr.2 = .error e0) :
    ∃ e, resolveParams overrides schema = .error e := by
  induction schema with
  | nil => cases hmem
  | cons q rest ih =>
      rcases List.mem_cons.mp hmem with heq | hmem2
      · subst heq
        obtain ⟨e0, he0⟩ := hrej
        obtain ⟨pn, pv⟩ := pr
        refine ⟨e0, ?_⟩
        unfold resolveParams
        simp only [hov, he0]
      · cases hq : overrides.find? (fun p => p.1 = q.name) with
        | none =>
            obtain ⟨e, he⟩ := ih hmem2
            refine ⟨e, ?_⟩
            unfold resolveParams
            simp only [hq, he]
        | some qr =>
            obtain ⟨qn, qv⟩ := qr
            cases hv : validateOverride q qv with
            | error e1 =>
                refine ⟨e1, ?_⟩
                unfold resolveParams
                simp only [hq, hv]
            | ok cv =>
                obtain ⟨e, he⟩ := ih hmem2
                refine ⟨e, ?_⟩
                unfold resolveParams
                simp only [hq, hv, he]

/-- C8: whenever the override mapping supplies, for some descriptor of
the scorer's schema, a value whose coerced form the descriptor's
validator rejects, construction fails with a parameter error — no
scorer instance is returned (and hence no scoring work can begin on
one). -/
theorem scorer_init_validator_rejection_fails (cls : ScorerCls)
    (overrides : List (String × Value)) (pd : ParamDef) (pr : String × Value)
    (cv : Value) (f : Validator)
    (hmem : pd ∈ cls.params)
    (hov : overrides.find? (fun p => p.1 = pd.name) = some pr)
    (hco : coerceValue pd.ptype pr.2 = some cv)
    (hval : pd.validator = some f)
    (hrej : f.eval cv = false) :
    ∃ e, Scorer.init cls overrides = .error e ∧ e.isParamError = true := by
  have hvo : validateOverride pd pr.2 =
      .error (.valueError ("invalid value for parameter " ++ pd.name)) := by
    unfold validateOverride
    simp [hco, hval, hrej]
  unfold Scorer.init withParamsInit
  cases hu : firstUnknown cls.params overrides with
  | some n =>
      exact ⟨.typeError ("unknown parameter " ++ n), by simp only [hu], rfl⟩
  | none =>
      obtain ⟨e, he⟩ := resolveParams_error_of_reject overrides cls.params pd pr
        hmem hov ⟨_, hvo⟩
      refine ⟨e, ?_, resolveParams_error_is_param overrides cls.params e he⟩
      simp only [hu, he]

theorem scorer_init_validator_rejection_fails_witness :
    ∃ e, Scorer.init jsDivCls [("window_size", Value.int (-1))] = .error e ∧
      e.isParamError = true :=
  scorer_init_validator_rejection_fails jsDivCls
    [("window_size", Value.int (-1))]
    ⟨"window_size", .int 2, .int, some .ge0,
      "Number of residues on either side included in the window"⟩
    ("window_size", Value.int (-1)) (Value.int (-1)) .ge0
    (by decide) rfl rfl rfl rfl

/-- C10: after `Scorer.__init__` completes, the instance's `name`
attribute is the class's module path with its first dotted component
(the `scorers` root) removed, whatever overrides were supplied; for a
class of module `scorers.caprasingh07.js_divergence` the name is
`"caprasingh07.js_divergence"`. -/
theorem scorer_init_sets_name (cls : ScorerCls)
    (overrides : List (String × Value)) (inst : ScorerInstance)
    (h : Scorer.init cls overrides = .ok inst) :
    inst.name = String.intercalate "." ((pySplit cls.moduleName '.').drop 1) ∧
    (cls.moduleName = "scorers.caprasingh07.js_divergence" →
      inst.name = "caprasingh07.js_divergence") := by
  unfold Scorer.init at h
  cases hw : withParamsInit cls.params overrides with
  | error e =>
      simp only [hw] at h
      exact Except.noConfusion h
  | ok attrs =>
      simp only [hw, Except.ok.injEq] at h
      subst h
      constructor
      · rfl
      · intro hmod
        simp only [hmod]
        rfl

theorem scorer_init_sets_name_witness :
    jsDivInst.name =
      String.intercalate "." ((pySplit jsDivCls.moduleName '.').drop 1) ∧
    (jsDivCls.moduleName = "scorers.caprasingh07.js_divergence" →
      jsDivInst.name = "caprasingh07.js_divergence") :=
  scorer_init_sets_name jsDivCls [] jsDivInst rfl
